import Mathlib

/-!
Formal model of the orchestrator API surface of this repository
(src/orchestrator/api.py), together with the engine state it manipulates.

The API handlers are translated directly from src/orchestrator/api.py.
The orchestrator engine (the `orchestrator` object, its miner registry, the
merge-session manager, the score and loss aggregator and the metrics
collector) is not under src/: those operations are modelled from the spec
(spec.md), as stated in each definition's doc comment.

Numeric values that are Python floats in the source (scores, losses,
timestamps) are modelled as exact rationals; no claim depends on
floating-point rounding.  Python dictionaries are modelled as ordered
association lists with unique keys (insertion order, in-place overwrite),
and Python exceptions as explicit error values.
-/

set_option linter.unusedVariables false

/-- Association-list lookup, mirroring Python `dict.get` / `dict[k]`. -/
def lookupEntry {κ ν : Type} [DecidableEq κ] : List (κ × ν) → κ → Option ν
  | [], _ => none
  | p :: rest, k => if p.1 = k then some p.2 else lookupEntry rest k

/-- Association-list update, mirroring Python `dict[k] = v`: the first entry
with the key is overwritten in place, otherwise the entry is appended. -/
def setEntry {κ ν : Type} [DecidableEq κ] : List (κ × ν) → κ → ν → List (κ × ν)
  | [], k, v => [(k, v)]
  | p :: rest, k, v => if p.1 = k then (k, v) :: rest else p :: setEntry rest k v

/-- The rightmost value recorded for a key in a list of pairs (the value a
sequence of `dict[k] = v` writes would leave behind). -/
def lastScore (m : List (String × Rat)) (k : String) : Option Rat :=
  m.foldl (fun acc p => if p.1 = k then some p.2 else acc) none

/-- Modelled from the spec: §3 MinerRecord — assigned layer, status, and the
nullable activation correlation id and storage path.  The MinerRegistry class
is not under src/.  The status is kept as the raw string the client submitted
(§4.1: transitions are accepted unconditionally at this layer); the
last-update timestamp and rolling performance samples have no bearing on any
claim and are not tracked. -/
structure MinerData where
  layer : Nat
  status : String
  activation_uid : Option Nat
  activation_path : Option String
  deriving DecidableEq

/-- Modelled from the spec: §4.3 the full-weight upload notification recorded
for one miner (the four opaque storage paths of `notify_weights_uploaded`);
the `SubmittedWeights` serializer is not under src/. -/
structure SubmittedWeights where
  hotkey : String
  weights_path : String
  metadata_path : String
  optimizer_state_path : String
  optimizer_state_metadata_path : String
  deriving DecidableEq

/-- Modelled from the spec: §3 Partition — one shard of a merge contributed by
one miner, identified by (layer, section index, contributing hotkey); the
contributing hotkey is the request signer, so the uploaded value carries the
layer, the section index and an opaque chunk path.  The `utils.partitions`
module is not under src/. -/
structure Partition where
  layer : Nat
  section_index : Nat
  chunk_path : String
  deriving DecidableEq

/-- Modelled from the spec: §3 MergeSession — layer, status
(`pending / active / completed / failed / timeout` as strings), the target
miner snapshot, the weights-received set, the recorded full-weight uploads,
the partitions-completed key set and the expected section count.  The merge
session manager is not under src/. -/
structure MergeSession where
  session_id : Nat
  layer : Nat
  status : String
  target_miners : List String
  weights_received : List String
  weights_submitted : List (String × SubmittedWeights)
  partitions_completed : List (Nat × Nat × String)
  num_sections : Nat
  deriving DecidableEq

/-- Modelled from the spec: §3 ValidatorRecord — network address of a
registered validator. -/
structure ValidatorRecord where
  host : String
  port : Nat
  scheme : String
  deriving DecidableEq

/-- Modelled from the spec: §4.5 one completed merge session as recorded by
the metrics collector, carrying the fields read by the
merge_performance_history endpoint (api.py lines 550-563). -/
structure SessionMetrics where
  session_id : Nat
  layer : Nat
  status : String
  started_at : Rat
  completed_at : Rat
  target_miners : List String
  weights_received : List String
  partitions_completed : List (Nat × Nat × String)
  deriving DecidableEq

/-- Modelled from the spec: §3 duration = completed-at − started-at. -/
def SessionMetrics.get_session_duration (s : SessionMetrics) : Rat :=
  s.completed_at - s.started_at

/-- Modelled from the spec: §3 participation rate =
|weights-received| / |target miners|, 0 when the target set is empty. -/
def SessionMetrics.get_participation_rate (s : SessionMetrics) : Rat :=
  if s.target_miners.length = 0 then 0
  else (s.weights_received.length : Rat) / (s.target_miners.length : Rat)

/-- Modelled from the spec: §4.5 the append-only store of completed merge
sessions kept by the weight-merging metrics collector. -/
structure MetricsCollector where
  completed_sessions : List SessionMetrics
  deriving DecidableEq

/-- The orchestrator engine state.  Modelled from the spec: §3 — the miner
registry, the global score table, the loss aggregates, the per-layer merge
sessions, the validator directory and the metrics collector; the engine
classes are not under src/. -/
structure Orchestrator where
  N_LAYERS : Nat
  miner_registry : List (String × MinerData)
  score_table : List (String × Rat)
  losses : List (Nat × Rat)
  loss_records : List (String × Nat × Rat)
  sessions : List MergeSession
  validators : List (String × ValidatorRecord)
  weight_merging_metrics_collector : MetricsCollector
  deriving DecidableEq

/-- Python exceptions raised by code outside the handler bodies. -/
inductive PyExc where
  | minerNotFound (hotkey : String)
  | entityTypeRejected
  deriving DecidableEq

/-- The string rendering `str(e)` used when a handler maps a caught exception
to an HTTP 500 detail. -/
def pyExcMsg : PyExc → String
  | .minerNotFound h => "Miner " ++ h ++ " not found in registry"
  | .entityTypeRejected => "entity type rejected"

/-- Modelled from the spec: §4.1 `get(hotkey) -> MinerRecord | NotFound`.
`none` models the miner-not-found exception, which the api.py handlers never
catch at the call sites inside `logger.contextualize`. -/
def Orchestrator.get_miner_data (st : Orchestrator) (hotkey : String) : Option MinerData :=
  lookupEntry st.miner_registry hotkey

/-- Number of non-OFFLINE miners assigned to a layer (spec §4.2: the balancer
counts currently-assigned active miners). -/
def layerPopulation (st : Orchestrator) (layer : Nat) : Nat :=
  (st.miner_registry.filter (fun p => p.2.layer == layer && p.2.status != "offline")).length

/-- Modelled from the spec: §4.2 the least-populated-layer selection — the
layer among `0 .. N_LAYERS-1` with the fewest active miners, ties broken by
the lowest index.  api.py line 236 invokes the engine's `request_layer()`
without the caller's hotkey, so the selection is a function of the engine
state alone. -/
def Orchestrator.request_layer (st : Orchestrator) : Nat :=
  (List.range st.N_LAYERS).foldl
    (fun best l => if layerPopulation st l < layerPopulation st best then l else best) 0

/-- Modelled from the spec: §4.2/§4.1 `register(hotkey)` — assign the new
hotkey to the least-populated layer and create its registry record; returns
`none` (api.py line 148 checks for it) only when there is no assignable
layer. -/
def Orchestrator.register (st : Orchestrator) (hotkey : String) : Option Nat × Orchestrator :=
  if st.N_LAYERS = 0 then (none, st)
  else
    let layer := st.request_layer
    let registry := st.miner_registry ++ [(hotkey, ⟨layer, "registered", none, none⟩)]
    (some layer, { st with miner_registry := registry })

/-- Modelled from the spec: §4.1 `update_status` — validates that the hotkey
exists (else NotFound) and stores the new status and optional activation
fields unconditionally. -/
def Orchestrator.update_status (st : Orchestrator) (hotkey status : String)
    (activation_uid : Option Nat) (activation_path : Option String) : Except PyExc Orchestrator :=
  match st.get_miner_data hotkey with
  | none => .error (.minerNotFound hotkey)
  | some md =>
    let md2 : MinerData :=
      { md with status := status, activation_uid := activation_uid,
                activation_path := activation_path }
    .ok { st with miner_registry := setEntry st.miner_registry hotkey md2 }

/-- Modelled from the spec: §4.4 `submit_miner_scores` merges the submitted
map into the GlobalScoreTable.  The engine class is not under src/; api.py
line 98 forwards only the weights map — no validator identity — so the merge
is keyed by miner hotkey alone, each submitted value superseding the stored
one. -/
def Orchestrator.submit_miner_scores (st : Orchestrator) (weights : List (String × Rat)) : Orchestrator :=
  { st with score_table := weights.foldl (fun tbl p => setEntry tbl p.1 p.2) st.score_table }

/-- Modelled from the spec: §4.4 `get_global_miner_scores()` — snapshot read
of the global score table. -/
def Orchestrator.get_global_miner_scores (st : Orchestrator) : List (String × Rat) :=
  st.score_table

/-- Modelled from the spec: §4.4 `record_and_report_loss` — appends a
LossRecord and retains the latest loss per activation id; fails only if the
hotkey is unregistered, never for duplicate activation ids. -/
def Orchestrator.record_and_report_loss (st : Orchestrator) (hotkey : String)
    (activation_uid : Nat) (loss : Rat) : Except PyExc Orchestrator :=
  match st.get_miner_data hotkey with
  | none => .error (.minerNotFound hotkey)
  | some _ => .ok { st with
      loss_records := st.loss_records ++ [(hotkey, activation_uid, loss)],
      losses := setEntry st.losses activation_uid loss }

/-- The layer's current non-terminal merge session, if any (spec §3: a layer
has at most one non-terminal session at a time; `find?` returns it). -/
def findCurrentSession (st : Orchestrator) (layer : Nat) : Option MergeSession :=
  st.sessions.find? (fun s => s.layer == layer && (s.status == "pending" || s.status == "active"))

/-- Replace the session with the same session id. -/
def updateSession (st : Orchestrator) (s2 : MergeSession) : Orchestrator :=
  { st with sessions := st.sessions.map (fun s => if s.session_id == s2.session_id then s2 else s) }

/-- Modelled from the spec: §4.3 `notify_weights_uploaded` — records the
hotkey in weights-received of the layer's current PENDING/ACTIVE session iff
the hotkey is in the session's target set (idempotently, moving the session
to ACTIVE); returns success `false` when there is no eligible session or the
hotkey is not a target miner; fails with NotFound if the hotkey is
unregistered. -/
def Orchestrator.notify_weights_uploaded (st : Orchestrator) (hotkey : String)
    (weights_path metadata_path optimizer_state_path optimizer_state_metadata_path : String) :
    Except PyExc (Bool × Orchestrator) :=
  match st.get_miner_data hotkey with
  | none => .error (.minerNotFound hotkey)
  | some md =>
    match findCurrentSession st md.layer with
    | none => .ok (false, st)
    | some s =>
      if hotkey ∈ s.target_miners then
        let received :=
          if hotkey ∈ s.weights_received then s.weights_received
          else s.weights_received ++ [hotkey]
        let submitted :=
          if s.weights_submitted.any (fun q => q.1 == hotkey) then s.weights_submitted
          else s.weights_submitted ++
            [(hotkey, ⟨hotkey, weights_path, metadata_path, optimizer_state_path,
                       optimizer_state_metadata_path⟩)]
        let s2 := { s with status := "active", weights_received := received,
                           weights_submitted := submitted }
        .ok (true, updateSession st s2)
      else .ok (false, st)

/-- Record one uploaded partition (spec §4.3): if the partition's layer has a
current session and the (layer, section, hotkey) key is new, add it to
partitions-completed and mark the session active; a partition for a layer
with no current session is ignored (the spec's recommended ignore-and-log). -/
def recordPartition (st : Orchestrator) (hotkey : String) (p : Partition) : Orchestrator :=
  match findCurrentSession st p.layer with
  | none => st
  | some s =>
    if (p.layer, p.section_index, hotkey) ∈ s.partitions_completed then st
    else
      let done := s.partitions_completed ++ [(p.layer, p.section_index, hotkey)]
      updateSession st { s with status := "active", partitions_completed := done }

/-- Modelled from the spec: §4.3 `notify_merged_partitions_uploaded` —
records each new (layer, section, hotkey) partition key idempotently. -/
def Orchestrator.notify_merged_partitions_uploaded (st : Orchestrator) (hotkey : String)
    (partitions : List Partition) : Orchestrator :=
  partitions.foldl (fun s p => recordPartition s hotkey p) st

/-- Modelled from the spec: §4.3 `get_chunks_for_miner` — the weight chunks
submitted by other target miners in the current session of the caller's
layer, and the section indices not yet covered by the caller's own recorded
partitions; fails with NotFound if the hotkey is unregistered. -/
def Orchestrator.get_chunks_for_miner (st : Orchestrator) (hotkey : String) :
    Except PyExc (List SubmittedWeights × List Nat) :=
  match st.get_miner_data hotkey with
  | none => .error (.minerNotFound hotkey)
  | some md =>
    match findCurrentSession st md.layer with
    | none => .ok ([], [])
    | some s =>
      let chunks := (s.weights_submitted.filter (fun q => q.1 != hotkey)).map (fun q => q.2)
      let mine := s.partitions_completed.filter (fun k => k.2.2 == hotkey)
      let indices := (List.range s.num_sections).filter
        (fun i => !(mine.any (fun k => k.2.1 == i)))
      .ok (chunks, indices)

/-- Modelled from the spec: §4.3 `is_merging(layer)` reports
("active", num_sections) while the layer's session is PENDING or ACTIVE and a
non-merging status otherwise. -/
def Orchestrator.is_merging (st : Orchestrator) (layer : Nat) : String × Nat :=
  match findCurrentSession st layer with
  | some s => ("active", s.num_sections)
  | none => ("not_merging", 0)

/-- Modelled from the spec: §3 ValidatorRecord — created or overwritten by
`register_validator`; the directory write itself always succeeds. -/
def Orchestrator.register_validator (st : Orchestrator) (hotkey host : String) (port : Nat)
    (scheme : String) : Bool × Orchestrator :=
  (true, { st with validators := setEntry st.validators hotkey ⟨host, port, scheme⟩ })

/-- Modelled from the spec: §4.5 statistics over the completed sessions of a
layer (or all layers) inside the `[now − window, now]` interval: count,
number of successful sessions, average duration. -/
structure MergeStats where
  count : Nat
  success_count : Nat
  avg_duration : Rat
  deriving DecidableEq

/-- Modelled from the spec: §4.5 `get_merge_statistics` — a pure aggregation
over the completed-session log, filtered by optional layer and time window. -/
def MetricsCollector.get_merge_statistics (c : MetricsCollector) (layer : Option Nat)
    (now window_seconds : Rat) : MergeStats :=
  let inWindow := c.completed_sessions.filter (fun s =>
    (match layer with | none => true | some l => s.layer == l)
      && decide (now - window_seconds ≤ s.completed_at))
  let avg : Rat :=
    if inWindow.length = 0 then 0
    else (inWindow.map (fun s => s.get_session_duration)).foldl (fun a b => a + b) 0
           / (inWindow.length : Rat)
  { count := inWindow.length,
    success_count := (inWindow.filter (fun s => s.status == "completed")).length,
    avg_duration := avg }

/-- Modelled from the spec: §4.5 the currently non-terminal merge sessions
(read by the metrics surface, no mutation). -/
def Orchestrator.get_active_merge_sessions (st : Orchestrator) : List MergeSession :=
  st.sessions.filter (fun s => s.status == "pending" || s.status == "active")

/-!
The API handlers of src/orchestrator/api.py.

Each handler is a function of the engine state, the `settings.BITTENSOR`
flag, the `Epistula-Signed-By` header and two booleans standing for the two
external collaborators the spec excludes: `sigOk` is true iff the black-box
`verify_signature_v2` returns no error for this request, and `entityOk` is
true iff the black-box `verify_entity_type` would accept the signer for the
type the handler requires.  Each handler yields the ordered trace of
authentication and engine accesses it performs, its HTTP-level outcome, and
the engine state afterwards.
-/

/-- One observable step of a handler: an engine registry read performed while
building the `logger.contextualize` context, a signature verification, an
entity-type verification, or an invocation of an engine operation. -/
inductive Event where
  | registryLookup (hotkey : String)
  | sigVerify (ok : Bool)
  | entityCheck (required : String) (ok : Bool)
  | engineCall (op : String)
  deriving DecidableEq

/-- HTTP-level failure of a handler call.  `unauthenticated`, `notFound`,
`conflict`, `badRequest` and `internal` are the HTTPExceptions the handlers
raise (401 / 404 / 409 / 400 / 500); `unhandled` is a Python exception that
escapes the handler uncaught. -/
inductive ApiError where
  | unauthenticated (detail : String)
  | notFound (detail : String)
  | conflict (detail : String)
  | badRequest (detail : String)
  | internal (detail : String)
  | unhandled (exc : PyExc)
  deriving DecidableEq

/-- Outcome of a handler call. -/
inductive ApiResult (α : Type) where
  | ok (v : α)
  | fail (e : ApiError)
  deriving DecidableEq

/-- A handler run: the event trace, the outcome, and the engine state after
the call. -/
structure HResult (α : Type) where
  trace : List Event
  result : ApiResult α
  state : Orchestrator
  deriving DecidableEq

/-- The entity-type verification events of a handler that runs
`verify_entity_type` under `settings.BITTENSOR` and passes. -/
def entTr (bittensor : Bool) (required : String) : List Event :=
  if bittensor then [Event.entityCheck required true] else []

/-- Response of the register endpoint (`MinerRegistrationResponse`). -/
structure MinerRegistrationResponse where
  hotkey : String
  layer : Nat
  deriving DecidableEq

/-- Response of the request_layer endpoint (`LayerAssignmentResponse`). -/
structure LayerAssignmentResponse where
  layer : Nat
  deriving DecidableEq

/-- Body of the miners/status endpoint (`MinerStatusUpdate`). -/
structure MinerStatusUpdate where
  status : String
  activation_uid : Option Nat
  activation_path : Option String
  deriving DecidableEq

/-- Response of notify_weights_uploaded. -/
structure NotifyWeightsResponse where
  message : String
  success : Bool
  deriving DecidableEq

/-- Body of the report_loss endpoint (`LossReportRequest`). -/
structure LossReportRequest where
  activation_uid : Nat
  loss_value : Rat
  deriving DecidableEq

/-- Response of the report_loss endpoint (`LossReportResponse`). -/
structure LossReportResponse where
  hotkey : String
  activation_uid : Nat
  loss_value : Rat
  timestamp : Rat
  deriving DecidableEq

/-- api.py lines 67-70 `get_global_miner_weights`: public read, rate limited
by IP, no signature verification; returns the engine's global score map. -/
def get_global_miner_weights (st : Orchestrator) : HResult (List (String × Rat)) :=
  ⟨[.engineCall "get_global_miner_scores"], .ok st.get_global_miner_scores, st⟩

/-- api.py lines 73-100 `submit_miner_weights`: verifies the signature, then
under BITTENSOR verifies the signer is a validator (an entity rejection
escapes uncaught), then forwards ONLY the weights map to the engine — the
`signed_by` identity is never passed on (line 98). -/
def submit_miner_weights (st : Orchestrator) (bittensor : Bool) (signed_by : String)
    (sigOk entityOk : Bool) (weights : List (String × Rat)) : HResult String :=
  if !sigOk then
    ⟨[.sigVerify false], .fail (.unauthenticated "Epistula verification failed"), st⟩
  else if bittensor && !entityOk then
    ⟨[.sigVerify true, .entityCheck "validator" false], .fail (.unhandled .entityTypeRejected), st⟩
  else
    ⟨[.sigVerify true] ++ entTr bittensor "validator" ++ [.engineCall "submit_miner_scores"],
     .ok "Miner weights submitted successfully",
     st.submit_miner_scores weights⟩

/-- api.py lines 103-153 `register_miner`.  The whole body sits in a
`try ... except Exception` that re-raises ANY exception as
HTTPException(409, "Failed to register miner"); in particular the
HTTPException(401) raised on signature failure at line 129 is caught at line
151 and surfaced as the 409 conflict.  A hotkey already present in
`get_all_miner_data()` is answered with its existing layer without calling
the engine's register (lines 143-145). -/
def register_miner (st : Orchestrator) (bittensor : Bool) (signed_by : String)
    (sigOk entityOk : Bool) : HResult MinerRegistrationResponse :=
  if !sigOk then
    ⟨[.sigVerify false], .fail (.conflict "Failed to register miner"), st⟩
  else if bittensor && !entityOk then
    ⟨[.sigVerify true, .engineCall "get_all_miner_data", .entityCheck "miner" false],
     .fail (.conflict "Failed to register miner"), st⟩
  else
    match st.get_miner_data signed_by with
    | some md =>
      ⟨[.sigVerify true, .engineCall "get_all_miner_data"] ++ entTr bittensor "miner",
       .ok ⟨signed_by, md.layer⟩, st⟩
    | none =>
      match st.register signed_by with
      | (some layer, st2) =>
        ⟨[.sigVerify true, .engineCall "get_all_miner_data"] ++ entTr bittensor "miner"
           ++ [.engineCall "register"],
         .ok ⟨signed_by, layer⟩, st2⟩
      | (none, st2) =>
        ⟨[.sigVerify true, .engineCall "get_all_miner_data"] ++ entTr bittensor "miner"
           ++ [.engineCall "register"],
         .fail (.conflict "Failed to register miner"), st2⟩

/-- api.py lines 156-197 `update_miner_status`.  Line 169 evaluates
`orchestrator.miner_registry.get_miner_data(signed_by).layer` inside the
`logger.contextualize(...)` arguments — before the signature is verified and
outside the `try` at line 188 — so an unregistered hotkey raises there and
the exception escapes the handler. -/
def update_miner_status (st : Orchestrator) (bittensor : Bool) (signed_by : String)
    (sigOk entityOk : Bool) (status_update : MinerStatusUpdate) : HResult String :=
  match st.get_miner_data signed_by with
  | none => ⟨[.registryLookup signed_by], .fail (.unhandled (.minerNotFound signed_by)), st⟩
  | some _ =>
    if !sigOk then
      ⟨[.registryLookup signed_by, .sigVerify false],
       .fail (.unauthenticated "Epistula verification failed"), st⟩
    else if bittensor && !entityOk then
      ⟨[.registryLookup signed_by, .sigVerify true, .entityCheck "miner" false],
       .fail (.unhandled .entityTypeRejected), st⟩
    else
      let r := st.update_status signed_by status_update.status
                 status_update.activation_uid status_update.activation_path
      ⟨[.registryLookup signed_by, .sigVerify true] ++ entTr bittensor "miner"
         ++ [.engineCall "update_status"],
       match r with
       | .ok _ => .ok "Status updated successfully"
       | .error _ => .fail (.notFound "Miner not found"),
       match r with
       | .ok st2 => st2
       | .error _ => st⟩

/-- api.py lines 200-239 `request_layer`.  Same pre-verification registry
lookup in `logger.contextualize` (line 212); the engine call at line 236 is
`orchestrator.request_layer()` — the caller's hotkey is not passed. -/
def request_layer (st : Orchestrator) (bittensor : Bool) (signed_by : String)
    (sigOk entityOk : Bool) : HResult LayerAssignmentResponse :=
  match st.get_miner_data signed_by with
  | none => ⟨[.registryLookup signed_by], .fail (.unhandled (.minerNotFound signed_by)), st⟩
  | some _ =>
    if !sigOk then
      ⟨[.registryLookup signed_by, .sigVerify false],
       .fail (.unauthenticated "Epistula verification failed"), st⟩
    else if bittensor && !entityOk then
      ⟨[.registryLookup signed_by, .sigVerify true, .entityCheck "miner" false],
       .fail (.unhandled .entityTypeRejected), st⟩
    else
      ⟨[.registryLookup signed_by, .sigVerify true] ++ entTr bittensor "miner"
         ++ [.engineCall "request_layer"],
       .ok ⟨st.request_layer⟩, st⟩

/-- api.py lines 248-301 `notify_weights_uploaded`.  Pre-verification
registry lookup at line 264; the engine call is wrapped in
`try ... except IndexError -> 404 "Miner not found"` (lines 288-301) and its
boolean outcome is returned in the `success` field. -/
def notify_weights_uploaded (st : Orchestrator) (bittensor : Bool) (signed_by : String)
    (sigOk entityOk : Bool)
    (weights_path metadata_path optimizer_state_path optimizer_state_metadata_path : String) :
    HResult NotifyWeightsResponse :=
  match st.get_miner_data signed_by with
  | none => ⟨[.registryLookup signed_by], .fail (.unhandled (.minerNotFound signed_by)), st⟩
  | some _ =>
    if !sigOk then
      ⟨[.registryLookup signed_by, .sigVerify false],
       .fail (.unauthenticated "Epistula verification failed"), st⟩
    else if bittensor && !entityOk then
      ⟨[.registryLookup signed_by, .sigVerify true, .entityCheck "miner" false],
       .fail (.unhandled .entityTypeRejected), st⟩
    else
      let r := st.notify_weights_uploaded signed_by weights_path metadata_path
                 optimizer_state_path optimizer_state_metadata_path
      ⟨[.registryLookup signed_by, .sigVerify true] ++ entTr bittensor "miner"
         ++ [.engineCall "notify_weights_uploaded"],
       match r with
       | .ok (success, _) =>
         .ok ⟨"Weights notification processed successfully", success⟩
       | .error _ => .fail (.notFound "Miner not found"),
       match r with
       | .ok (_, st2) => st2
       | .error _ => st⟩

/-- api.py lines 304-336 `notify_merged_partitions_uploaded`.
Pre-verification registry lookup at line 317.  Unlike every other
miner-scoped handler, there is NO `verify_entity_type` call in this handler:
after the signature check the partitions go straight to the engine at line
335 regardless of the signer's entity type (the `entityOk` argument is
accepted for uniformity and never consulted, mirroring the source). -/
def notify_merged_partitions_uploaded (st : Orchestrator) (bittensor : Bool) (signed_by : String)
    (sigOk entityOk : Bool) (partitions : List Partition) : HResult String :=
  match st.get_miner_data signed_by with
  | none => ⟨[.registryLookup signed_by], .fail (.unhandled (.minerNotFound signed_by)), st⟩
  | some _ =>
    if !sigOk then
      ⟨[.registryLookup signed_by, .sigVerify false],
       .fail (.unauthenticated "Epistula verification failed"), st⟩
    else
      ⟨[.registryLookup signed_by, .sigVerify true,
        .engineCall "notify_merged_partitions_uploaded"],
       .ok "Merged partitions notification processed successfully",
       st.notify_merged_partitions_uploaded signed_by partitions⟩

/-- api.py lines 339-342 `get_all_losses`: public read, rate limited by IP,
no signature verification; stringifies the activation-id keys. -/
def get_all_losses (st : Orchestrator) : HResult (List (String × Rat)) :=
  ⟨[.engineCall "losses"], .ok (st.losses.map (fun p => (toString p.1, p.2))), st⟩

/-- api.py lines 345-392 `report_loss`.  Pre-verification registry lookup at
line 358; the engine call is wrapped in `try ... except Exception -> 500`
(lines 379-392), so even an engine NotFound would surface as a 500, never as
a 404. -/
def report_loss (st : Orchestrator) (bittensor : Bool) (signed_by : String)
    (sigOk entityOk : Bool) (loss_report : LossReportRequest) (now : Rat) :
    HResult LossReportResponse :=
  match st.get_miner_data signed_by with
  | none => ⟨[.registryLookup signed_by], .fail (.unhandled (.minerNotFound signed_by)), st⟩
  | some _ =>
    if !sigOk then
      ⟨[.registryLookup signed_by, .sigVerify false],
       .fail (.unauthenticated "Epistula verification failed"), st⟩
    else if bittensor && !entityOk then
      ⟨[.registryLookup signed_by, .sigVerify true, .entityCheck "miner" false],
       .fail (.unhandled .entityTypeRejected), st⟩
    else
      let r := st.record_and_report_loss signed_by loss_report.activation_uid
                 loss_report.loss_value
      ⟨[.registryLookup signed_by, .sigVerify true] ++ entTr bittensor "miner"
         ++ [.engineCall "record_and_report_loss"],
       match r with
       | .ok _ => .ok ⟨signed_by, loss_report.activation_uid, loss_report.loss_value, now⟩
       | .error e => .fail (.internal (pyExcMsg e)),
       match r with
       | .ok st2 => st2
       | .error _ => st⟩

/-- api.py lines 395-401 `is_merging`: explicitly public ("no authentication
required"), reads the engine's merging phase for the layer. -/
def is_merging (st : Orchestrator) (layer : Nat) : HResult (String × Nat) :=
  ⟨[.engineCall "is_merging"], .ok (st.is_merging layer), st⟩

/-- api.py lines 404-436 `get_chunks_for_miner`.  Pre-verification registry
lookup at line 417; no try/except around the engine call. -/
def get_chunks_for_miner (st : Orchestrator) (bittensor : Bool) (signed_by : String)
    (sigOk entityOk : Bool) : HResult (List SubmittedWeights × List Nat) :=
  match st.get_miner_data signed_by with
  | none => ⟨[.registryLookup signed_by], .fail (.unhandled (.minerNotFound signed_by)), st⟩
  | some _ =>
    if !sigOk then
      ⟨[.registryLookup signed_by, .sigVerify false],
       .fail (.unauthenticated "Epistula verification failed"), st⟩
    else if bittensor && !entityOk then
      ⟨[.registryLookup signed_by, .sigVerify true, .entityCheck "miner" false],
       .fail (.unhandled .entityTypeRejected), st⟩
    else
      let r := st.get_chunks_for_miner signed_by
      ⟨[.registryLookup signed_by, .sigVerify true] ++ entTr bittensor "miner"
         ++ [.engineCall "get_chunks_for_miner"],
       match r with
       | .ok v => .ok v
       | .error e => .fail (.unhandled e),
       st⟩

/-- api.py lines 439-478 `register_validator`: verifies the signature, then
under BITTENSOR verifies the signer is a validator, then registers the
endpoint; an engine `false` becomes HTTPException(400). -/
def register_validator (st : Orchestrator) (bittensor : Bool) (signed_by : String)
    (sigOk entityOk : Bool) (host : String) (port : Nat) (scheme : String) : HResult String :=
  if !sigOk then
    ⟨[.sigVerify false], .fail (.unauthenticated "Epistula verification failed"), st⟩
  else if bittensor && !entityOk then
    ⟨[.sigVerify true, .entityCheck "validator" false], .fail (.unhandled .entityTypeRejected), st⟩
  else
    let r := st.register_validator signed_by host port scheme
    ⟨[.sigVerify true] ++ entTr bittensor "validator" ++ [.engineCall "register_validator"],
     if r.1 then .ok "Validator registered successfully"
     else .fail (.badRequest "Validator registration failed"),
     r.2⟩

/-- One entry of the `recent_sessions` list built by
`get_merge_performance_history` (api.py lines 551-564): identifiers,
lifecycle data and the SIZES of the three participant sets. -/
structure RecentSessionEntry where
  session_id : Nat
  layer : Nat
  status : String
  started_at : Rat
  completed_at : Rat
  duration : Rat
  participation_rate : Rat
  target_miners_count : Nat
  weights_received_count : Nat
  partitions_completed_count : Nat
  deriving DecidableEq

/-- The dictionary api.py lines 551-564 builds for one completed session. -/
def sessionEntry (s : SessionMetrics) : RecentSessionEntry :=
  ⟨s.session_id, s.layer, s.status, s.started_at, s.completed_at,
   s.get_session_duration, s.get_participation_rate,
   s.target_miners.length, s.weights_received.length, s.partitions_completed.length⟩

/-- Response of the merge_performance_history endpoint (api.py lines
566-573). -/
structure MergeHistoryResponse where
  time_window_hours : Nat
  overall_statistics : MergeStats
  layer_statistics : List (Nat × MergeStats)
  active_sessions : List MergeSession
  recent_sessions : List RecentSessionEntry
  timestamp : Rat
  deriving DecidableEq

/-- api.py lines 520-576 `get_merge_performance_history`: public metrics
read.  `recent_sessions` walks `completed_sessions[-10:]` — the Python slice
is `drop (length - 10)` — and records per session only the lengths of the
target-miner, weights-received and partitions-completed collections; nothing
is written back to the collector. -/
def get_merge_performance_history (st : Orchestrator) (now : Rat)
    (time_window_hours : Nat) (include_layer_breakdown : Bool) : HResult MergeHistoryResponse :=
  let tws : Rat := (time_window_hours : Rat) * 3600
  let overall := st.weight_merging_metrics_collector.get_merge_statistics none now tws
  let layer_stats :=
    if include_layer_breakdown then
      (List.range st.N_LAYERS).map
        (fun l => (l, st.weight_merging_metrics_collector.get_merge_statistics (some l) now tws))
    else []
  let completed := st.weight_merging_metrics_collector.completed_sessions
  let recent := (completed.drop (completed.length - 10)).map sessionEntry
  ⟨[.engineCall "get_merge_statistics", .engineCall "get_active_merge_sessions"],
   .ok ⟨time_window_hours, overall, layer_stats, st.get_active_merge_sessions, recent, now⟩,
   st⟩

/-!
Predicates over handler traces, and concrete states used by the witnesses
and counterexamples.
-/

/-- True iff the engine result is a success. -/
def okE (r : Except PyExc Orchestrator) : Bool :=
  match r with
  | .ok _ => true
  | .error _ => false

/-- Helper for `engineGated`: scans the trace left to right; `seen` records
whether a successful signature verification has happened yet, and every
`engineCall` must come after one. -/
def gatedAux : Bool → List Event → Bool
  | _, [] => true
  | _, Event.sigVerify true :: rest => gatedAux true rest
  | seen, Event.sigVerify false :: rest => gatedAux seen rest
  | seen, Event.engineCall _ :: rest => seen && gatedAux seen rest
  | seen, Event.registryLookup _ :: rest => gatedAux seen rest
  | seen, Event.entityCheck _ _ :: rest => gatedAux seen rest

/-- Every engine operation invocation in the trace is preceded by a
successful signature verification (registry lookups made for logging are not
counted as engine operation invocations here). -/
def engineGated (tr : List Event) : Bool := gatedAux false tr

/-- Helper for `engineAccessGated`: like `gatedAux` but a registry lookup
also counts as an engine access. -/
def accessGatedAux : Bool → List Event → Bool
  | _, [] => true
  | _, Event.sigVerify true :: rest => accessGatedAux true rest
  | seen, Event.sigVerify false :: rest => accessGatedAux seen rest
  | seen, Event.engineCall _ :: rest => seen && accessGatedAux seen rest
  | seen, Event.registryLookup _ :: rest => seen && accessGatedAux seen rest
  | seen, Event.entityCheck _ _ :: rest => accessGatedAux seen rest

/-- Every engine access in the trace — engine operation or registry read —
is preceded by a successful signature verification.  This is claim C6's
property as stated. -/
def engineAccessGated (tr : List Event) : Bool := accessGatedAux false tr

/-- The trace contains a signature-verification event. -/
def hasSigVerify (tr : List Event) : Bool :=
  tr.any (fun ev => match ev with | .sigVerify _ => true | _ => false)

/-- The trace contains an engine operation invocation. -/
def hasEngineCall (tr : List Event) : Bool :=
  tr.any (fun ev => match ev with | .engineCall _ => true | _ => false)

/-- The trace contains an entity-type verification. -/
def hasEntityCheck (tr : List Event) : Bool :=
  tr.any (fun ev => match ev with | .entityCheck _ _ => true | _ => false)

/-- The outcome of the expected, successful branch of `request_layer` once
the caller's registry record was found: it depends on the state and the
authentication booleans but not on which hotkey called. -/
def registeredRLResult (st : Orchestrator) (bittensor sigOk entityOk : Bool) :
    ApiResult LayerAssignmentResponse :=
  if !sigOk then .fail (.unauthenticated "Epistula verification failed")
  else if bittensor && !entityOk then .fail (.unhandled .entityTypeRejected)
  else .ok ⟨st.request_layer⟩

/-- The engine state `record_and_report_loss` leaves behind on success. -/
def lossAppended (st : Orchestrator) (hotkey : String) (uid : Nat) (l : Rat) : Orchestrator :=
  { st with loss_records := st.loss_records ++ [(hotkey, uid, l)],
            losses := setEntry st.losses uid l }

/-- First-some choice on options. -/
def optOr {α : Type} : Option α → Option α → Option α
  | some v, _ => some v
  | none, b => b

/-- A two-layer orchestrator with an empty registry. -/
def stEmpty : Orchestrator := ⟨2, [], [], [], [], [], [], ⟨[]⟩⟩

/-- A registered idle miner record on layer 0. -/
def mdIdle0 : MinerData := ⟨0, "idle", none, none⟩

/-- A registered idle miner record on layer 1. -/
def mdIdle1 : MinerData := ⟨1, "idle", none, none⟩

/-- A two-layer orchestrator with one registered miner "m" on layer 0 and no
merge session. -/
def stReg : Orchestrator := ⟨2, [("m", mdIdle0)], [], [], [], [], [], ⟨[]⟩⟩

/-- A two-layer orchestrator with miners "a" (layer 0) and "b" (layer 1). -/
def stReg2 : Orchestrator := ⟨2, [("a", mdIdle0), ("b", mdIdle1)], [], [], [], [], [], ⟨[]⟩⟩

/-- A pending merge session on layer 0 targeting miner "m", expecting two
sections. -/
def sessW : MergeSession := ⟨1, 0, "pending", ["m"], [], [], [], 2⟩

/-- `stReg` with the pending session `sessW` on layer 0. -/
def stSess : Orchestrator := ⟨2, [("m", mdIdle0)], [], [], [], [sessW], [], ⟨[]⟩⟩

/-- A status-update body. -/
def suW : MinerStatusUpdate := ⟨"training", none, none⟩

/-- State after validator "v1" submits score 9 for miner "A" (the handler
forwards only the map). -/
def stC1a : Orchestrator := (submit_miner_weights stEmpty false "v1" true true [("A", 9)]).state

/-- State after validator "v2" then submits score 7 for the same miner "A". -/
def stC1b : Orchestrator := (submit_miner_weights stC1a false "v2" true true [("A", 7)]).state

/-!
Shared helper lemmas.
-/

/-- Looking a key up after a `dict[k] = v` write: the written key reads the
new value, every other key is untouched. -/
theorem lookupEntry_setEntry {κ ν : Type} [DecidableEq κ] (tbl : List (κ × ν)) (k k' : κ) (v : ν) :
    lookupEntry (setEntry tbl k v) k' = if k = k' then some v else lookupEntry tbl k' := by
  induction tbl with
  | nil => by_cases hkk : k = k' <;> simp [setEntry, lookupEntry, hkk]
  | cons p rest ih =>
    by_cases hpk : p.1 = k
    · by_cases hkk : k = k'
      · simp [setEntry, lookupEntry, hpk, hkk]
      · have hpk' : ¬ p.1 = k' := fun hc => hkk (hpk ▸ hc)
        simp [setEntry, lookupEntry, hpk, hkk, hpk']
    · by_cases hkk : k = k'
      · subst hkk
        have hpk' : ¬ p.1 = k := hpk
        simp [setEntry, lookupEntry, hpk, hpk', ih]
      · have hkk' : ¬ k' = k := fun hc => hkk hc.symm
        by_cases hpq : p.1 = k' <;>
          simp [setEntry, lookupEntry, hpk, hkk, hkk', hpq, ih]

/-- Folding a submitted weights map into a score table with `dict[k] = v`
writes: afterwards a key reads the map's last value for it, or its old value
if the map never mentions it. -/
theorem lookupEntry_fold_setEntry (m : List (String × Rat)) (tbl : List (String × Rat)) (k : String) :
    lookupEntry (m.foldl (fun t p => setEntry t p.1 p.2) tbl) k
      = optOr (lastScore m k) (lookupEntry tbl k) := by
  induction m using List.reverseRecOn with
  | nil => simp [lastScore, optOr]
  | append_singleton ms p ih =>
    rw [List.foldl_append, List.foldl_cons, List.foldl_nil, lookupEntry_setEntry]
    have hlast : lastScore (ms ++ [p]) k
        = if p.1 = k then some p.2 else lastScore ms k := by
      simp [lastScore, List.foldl_append]
    rw [hlast]
    by_cases hpk : p.1 = k
    · simp [hpk, optOr]
    · simp [hpk, ih]

/-- The expected branch of `request_layer` for a registered caller: the
outcome does not depend on which hotkey called, only on the state and the
authentication booleans. -/
theorem request_layer_registered_result (st : Orchestrator) (b : Bool) (h : String)
    (s e : Bool) (md : MinerData) (hm : st.get_miner_data h = some md) :
    (request_layer st b h s e).result = registeredRLResult st b s e := by
  cases s <;> cases b <;> cases e <;>
    simp [request_layer, registeredRLResult, hm, entTr]

/-- `submit_miner_weights` invokes the engine only after a successful
signature verification. -/
theorem gated_submit_miner_weights (st : Orchestrator) (b : Bool) (h : String) (s e : Bool)
    (m : List (String × Rat)) :
    engineGated (submit_miner_weights st b h s e m).trace = true := by
  cases s <;> cases b <;> cases e <;>
    simp [submit_miner_weights, engineGated, gatedAux, entTr]

/-- `register_miner` invokes the engine only after a successful signature
verification. -/
theorem gated_register_miner (st : Orchestrator) (b : Bool) (h : String) (s e : Bool) :
    engineGated (register_miner st b h s e).trace = true := by
  cases s <;> cases b <;> cases e <;>
    cases hmd : st.get_miner_data h <;>
      cases hr : st.register h <;>
        rename_i ol st2 <;> cases ol <;>
          simp [register_miner, engineGated, gatedAux, entTr, hmd, hr]

/-- `update_miner_status` invokes the engine only after a successful
signature verification. -/
theorem gated_update_miner_status (st : Orchestrator) (b : Bool) (h : String) (s e : Bool)
    (su : MinerStatusUpdate) :
    engineGated (update_miner_status st b h s e su).trace = true := by
  cases hmd : st.get_miner_data h <;> cases s <;> cases b <;> cases e <;>
    simp [update_miner_status, engineGated, gatedAux, entTr, hmd]

/-- `request_layer` invokes the engine only after a successful signature
verification. -/
theorem gated_request_layer (st : Orchestrator) (b : Bool) (h : String) (s e : Bool) :
    engineGated (request_layer st b h s e).trace = true := by
  cases hmd : st.get_miner_data h <;> cases s <;> cases b <;> cases e <;>
    simp [request_layer, engineGated, gatedAux, entTr, hmd]

/-- `notify_weights_uploaded` invokes the engine only after a successful
signature verification. -/
theorem gated_notify_weights_uploaded (st : Orchestrator) (b : Bool) (h : String) (s e : Bool)
    (wp mp op om : String) :
    engineGated (notify_weights_uploaded st b h s e wp mp op om).trace = true := by
  cases hmd : st.get_miner_data h <;> cases s <;> cases b <;> cases e <;>
    simp [notify_weights_uploaded, engineGated, gatedAux, entTr, hmd]

/-- `notify_merged_partitions_uploaded` invokes the engine only after a
successful signature verification. -/
theorem gated_notify_merged_partitions (st : Orchestrator) (b : Bool) (h : String) (s e : Bool)
    (ps : List Partition) :
    engineGated (notify_merged_partitions_uploaded st b h s e ps).trace = true := by
  cases hmd : st.get_miner_data h <;> cases s <;>
    simp [notify_merged_partitions_uploaded, engineGated, gatedAux, hmd]

/-- `report_loss` invokes the engine only after a successful signature
verification. -/
theorem gated_report_loss (st : Orchestrator) (b : Bool) (h : String) (s e : Bool)
    (lr : LossReportRequest) (now : Rat) :
    engineGated (report_loss st b h s e lr now).trace = true := by
  cases hmd : st.get_miner_data h <;> cases s <;> cases b <;> cases e <;>
    simp [report_loss, engineGated, gatedAux, entTr, hmd]

/-- `get_chunks_for_miner` invokes the engine only after a successful
signature verification. -/
theorem gated_get_chunks_for_miner (st : Orchestrator) (b : Bool) (h : String) (s e : Bool) :
    engineGated (get_chunks_for_miner st b h s e).trace = true := by
  cases hmd : st.get_miner_data h <;> cases s <;> cases b <;> cases e <;>
    simp [get_chunks_for_miner, engineGated, gatedAux, entTr, hmd]

/-- `register_validator` invokes the engine only after a successful
signature verification. -/
theorem gated_register_validator (st : Orchestrator) (b : Bool) (h : String) (s e : Bool)
    (host : String) (port : Nat) (scheme : String) :
    engineGated (register_validator st b h s e host port scheme).trace = true := by
  cases s <;> cases b <;> cases e <;>
    simp [register_validator, engineGated, gatedAux, entTr]

/-!
Claim theorems.
-/

/-- C1 (counterexample): the validator identity is not part of the recorded
contribution, and one validator's submission is lost to another's.  After
"v1" submits score 9 for miner "A" and "v2" submits 7 for "A", the global
table holds only 7 — v1's value is gone (and no mean is kept); moreover the
handler run is literally identical whichever validator signs the same map. -/
theorem c1_counterexample_contribution_lost :
    stC1b.score_table = [("A", 7)]
  ∧ lookupEntry stC1b.score_table "A" ≠ some 9
  ∧ lookupEntry stC1b.score_table "A" ≠ some 8
  ∧ submit_miner_weights stEmpty false "v1" true true [("A", 9)]
      = submit_miner_weights stEmpty false "v2" true true [("A", 9)] := by
  exact ⟨rfl, by decide, by decide, rfl⟩

/-- C1 (amended): `submit_miner_weights` verifies the signer is a validator
but forwards only the weights map to the engine, so the entire handler run —
result, trace and post-state — is independent of the submitting validator's
identity; the merge is keyed by miner hotkey alone: a key mentioned in the
submitted map ends at the map's last value for it (a resubmission by ANY
validator supersedes), and a key not mentioned keeps its previous value. -/
theorem c1_amended_identity_not_recorded (st : Orchestrator) (b : Bool) (v1 v2 : String)
    (s e : Bool) (m : List (String × Rat)) (k : String) :
    submit_miner_weights st b v1 s e m = submit_miner_weights st b v2 s e m
  ∧ lookupEntry (st.submit_miner_scores m).score_table k
      = optOr (lastScore m k) (lookupEntry st.score_table k) := by
  refine ⟨rfl, ?_⟩
  simp only [Orchestrator.submit_miner_scores]
  exact lookupEntry_fold_setEntry m st.score_table k

/-- C2 (code evaluated at the failing input): a register request whose
signature verification fails is answered with the 409 "Failed to register
miner" conflict — the HTTPException(401) raised inside the handler's `try`
is swallowed by its blanket `except Exception` — not with the 401
authentication failure that every other signed endpoint returns for the same
condition. -/
theorem c2_register_signature_failure_becomes_conflict :
    (register_miner stEmpty false "m" false true).result
        = .fail (.conflict "Failed to register miner")
  ∧ (register_miner stEmpty false "m" false true).result
        ≠ .fail (.unauthenticated "Epistula verification failed")
  ∧ (submit_miner_weights stEmpty false "m" false true []).result
        = .fail (.unauthenticated "Epistula verification failed")
  ∧ (update_miner_status stReg false "m" false true suW).result
        = .fail (.unauthenticated "Epistula verification failed") := by
  exact ⟨rfl, by decide, rfl, rfl⟩

/-- C3: register is idempotent — a registration request for a hotkey already
present in the miner registry is answered with that hotkey's current layer,
leaves the engine state (hence every layer-population count) unchanged, and
never invokes the engine's registration/assignment operation. -/
theorem c3_register_idempotent (st : Orchestrator) (b : Bool) (h : String) (e : Bool)
    (md : MinerData) (hreg : st.get_miner_data h = some md) (hbe : b = false ∨ e = true) :
    (register_miner st b h true e).result = .ok ⟨h, md.layer⟩
  ∧ (register_miner st b h true e).state = st
  ∧ Event.engineCall "register" ∉ (register_miner st b h true e).trace := by
  rcases hbe with hb | he
  · subst hb
    refine ⟨?_, ?_, ?_⟩ <;> simp [register_miner, hreg, entTr]
  · subst he
    cases b <;> (refine ⟨?_, ?_, ?_⟩ <;> simp [register_miner, hreg, entTr])

/-- C3 (witness): re-registering the already-registered miner "m" returns
its current layer 0 without touching the state or the register operation. -/
theorem c3_register_idempotent_witness :
    (register_miner stReg false "m" true true).result = .ok ⟨"m", 0⟩
  ∧ (register_miner stReg false "m" true true).state = stReg
  ∧ Event.engineCall "register" ∉ (register_miner stReg false "m" true true).trace :=
  c3_register_idempotent stReg false "m" true mdIdle0 rfl (Or.inl rfl)

/-- C4 (code evaluated at the failing input): for a registered caller with
no eligible session the handler does return success=false rather than an
exception; but for an UNREGISTERED hotkey the registry lookup performed in
the logging context raises before signature verification, outside the
handler's try/except, so the call ends in an uncaught miner-not-found error
— not the 404 NotFound the claim requires (that branch is unreachable for
this case). -/
theorem c4_unregistered_hotkey_unhandled_not_notfound :
    (notify_weights_uploaded stReg false "m" true true "w" "wm" "o" "om").result
        = .ok ⟨"Weights notification processed successfully", false⟩
  ∧ (notify_weights_uploaded stReg false "x" true true "w" "wm" "o" "om")
        = ⟨[.registryLookup "x"], .fail (.unhandled (.minerNotFound "x")), stReg⟩
  ∧ (notify_weights_uploaded stReg false "x" false true "w" "wm" "o" "om").result
        = .fail (.unhandled (.minerNotFound "x"))
  ∧ (notify_weights_uploaded stReg false "x" true true "w" "wm" "o" "om").result
        ≠ .fail (.notFound "Miner not found") := by
  exact ⟨rfl, rfl, rfl, by decide⟩

/-- C5 (counterexample): the layer selection of the stand-alone
`request_layer` call cannot depend on the caller's identity — the handler
passes no hotkey to the engine (api.py line 236) — so there is no state in
which two registered callers get different outcomes. -/
theorem c5_counterexample_selection_ignores_identity :
    ¬ ∃ (st : Orchestrator) (h1 h2 : String) (b s e : Bool) (md1 md2 : MinerData),
        st.get_miner_data h1 = some md1 ∧ st.get_miner_data h2 = some md2
        ∧ (request_layer st b h1 s e).result ≠ (request_layer st b h2 s e).result := by
  rintro ⟨st, h1, h2, b, s, e, md1, md2, hm1, hm2, hne⟩
  exact hne ((request_layer_registered_result st b h1 s e md1 hm1).trans
    (request_layer_registered_result st b h2 s e md2 hm2).symm)

/-- C5 (amended): `request_layer` re-runs the least-populated layer
selection on the engine state without the caller's identity — any two
registered callers receive the same outcome — and the call fails with the
engine-level miner-not-found error (raised by the pre-verification registry
lookup and left uncaught) exactly when the caller's hotkey is unregistered
at the time of the call. -/
theorem c5_amended_request_layer (st : Orchestrator) (b : Bool) (h1 h2 : String) (s e : Bool)
    (md1 md2 : MinerData) (hm1 : st.get_miner_data h1 = some md1)
    (hm2 : st.get_miner_data h2 = some md2) :
    (request_layer st b h1 s e).result = (request_layer st b h2 s e).result
  ∧ ∀ h : String,
      ((request_layer st b h s e).result = .fail (.unhandled (.minerNotFound h))
        ↔ st.get_miner_data h = none) := by
  constructor
  · exact (request_layer_registered_result st b h1 s e md1 hm1).trans
      (request_layer_registered_result st b h2 s e md2 hm2).symm
  · intro h
    constructor
    · intro hres
      cases hmd : st.get_miner_data h with
      | none => rfl
      | some md =>
        rw [request_layer_registered_result st b h s e md hmd] at hres
        cases s <;> cases b <;> cases e <;> simp [registeredRLResult] at hres
    · intro hmd
      simp [request_layer, hmd]

/-- C5 (witness): in a state with miners "a" and "b" registered on different
layers, both get the same request_layer outcome; the unregistered "x" is
exactly the hotkey that gets the miner-not-found failure. -/
theorem c5_amended_request_layer_witness :
    (request_layer stReg2 false "a" true true).result
        = (request_layer stReg2 false "b" true true).result
  ∧ ((request_layer stReg2 false "x" true true).result
        = .fail (.unhandled (.minerNotFound "x")) ↔ stReg2.get_miner_data "x" = none) := by
  have hc := c5_amended_request_layer stReg2 false "a" "b" true true mdIdle0 mdIdle1 rfl rfl
  exact ⟨hc.1, hc.2 "x"⟩

/-- C6 (counterexample): engine state is reachable by requests whose
signature verification was skipped: the public `is_merging`,
`global_miner_weights` and `losses` handlers invoke engine reads with no
verification event at all, and even the signed `update_miner_status` reads
the miner registry before (and regardless of) signature verification. -/
theorem c6_counterexample_unverified_engine_access :
    engineAccessGated (is_merging stEmpty 0).trace = false
  ∧ hasEngineCall (is_merging stEmpty 0).trace = true
  ∧ hasSigVerify (is_merging stEmpty 0).trace = false
  ∧ engineAccessGated (get_global_miner_weights stEmpty).trace = false
  ∧ engineAccessGated (get_all_losses stEmpty).trace = false
  ∧ engineAccessGated (update_miner_status stReg false "m" false true suW).trace = false := by
  exact ⟨rfl, rfl, rfl, rfl, rfl, rfl⟩

/-- C6 (amended): every signed endpoint invokes its engine OPERATION only
after its signature verification succeeded; but the miner-scoped handlers
read the caller's registry record for logging before verification, and the
public read surface (global_miner_weights, losses, is_merging and the
metrics endpoints) reaches engine reads with no signature verification at
all. -/
theorem c6_amended_engine_gating (st : Orchestrator) (b : Bool) (h : String) (s e : Bool)
    (m : List (String × Rat)) (su : MinerStatusUpdate) (wp mp op om : String)
    (ps : List Partition) (lr : LossReportRequest) (now : Rat) (host : String) (port : Nat)
    (scheme : String) (layer : Nat) (twh : Nat) (ilb : Bool) :
    engineGated (submit_miner_weights st b h s e m).trace = true
  ∧ engineGated (register_miner st b h s e).trace = true
  ∧ engineGated (update_miner_status st b h s e su).trace = true
  ∧ engineGated (request_layer st b h s e).trace = true
  ∧ engineGated (notify_weights_uploaded st b h s e wp mp op om).trace = true
  ∧ engineGated (notify_merged_partitions_uploaded st b h s e ps).trace = true
  ∧ engineGated (report_loss st b h s e lr now).trace = true
  ∧ engineGated (get_chunks_for_miner st b h s e).trace = true
  ∧ engineGated (register_validator st b h s e host port scheme).trace = true
  ∧ hasSigVerify (get_global_miner_weights st).trace = false
  ∧ hasEngineCall (get_global_miner_weights st).trace = true
  ∧ hasSigVerify (get_all_losses st).trace = false
  ∧ hasEngineCall (get_all_losses st).trace = true
  ∧ hasSigVerify (is_merging st layer).trace = false
  ∧ hasEngineCall (is_merging st layer).trace = true
  ∧ hasSigVerify (get_merge_performance_history st now twh ilb).trace = false
  ∧ hasEngineCall (get_merge_performance_history st now twh ilb).trace = true := by
  exact ⟨gated_submit_miner_weights st b h s e m,
    gated_register_miner st b h s e,
    gated_update_miner_status st b h s e su,
    gated_request_layer st b h s e,
    gated_notify_weights_uploaded st b h s e wp mp op om,
    gated_notify_merged_partitions st b h s e ps,
    gated_report_loss st b h s e lr now,
    gated_get_chunks_for_miner st b h s e,
    gated_register_validator st b h s e host port scheme,
    rfl, rfl, rfl, rfl, rfl, rfl, rfl, rfl⟩

/-- C7 (code evaluated at the failing input): in a restricted deployment
(BITTENSOR on), a validly-signed notify_merged_partitions_uploaded call from
a registered hotkey whose entity-type verification WOULD FAIL still reaches
the engine — the handler performs no entity check (no entityCheck event) and
the non-miner's partition is recorded into the layer-0 session — while the
sibling miner-scoped handlers reject the same caller before the engine. -/
theorem c7_merged_partitions_no_entity_check :
    hasEntityCheck
        (notify_merged_partitions_uploaded stSess true "m" true false [⟨0, 0, "p0"⟩]).trace = false
  ∧ (notify_merged_partitions_uploaded stSess true "m" true false [⟨0, 0, "p0"⟩]).result
        = .ok "Merged partitions notification processed successfully"
  ∧ hasEngineCall
        (notify_merged_partitions_uploaded stSess true "m" true false [⟨0, 0, "p0"⟩]).trace = true
  ∧ ((notify_merged_partitions_uploaded stSess true "m" true false [⟨0, 0, "p0"⟩]).state.sessions.map
        (fun ss => ss.partitions_completed)) = [[(0, 0, "m")]]
  ∧ (update_miner_status stSess true "m" true false suW).result
        = .fail (.unhandled .entityTypeRejected)
  ∧ (notify_weights_uploaded stSess true "m" true false "w" "wm" "o" "om").result
        = .fail (.unhandled .entityTypeRejected) := by
  exact ⟨rfl, rfl, rfl, by decide, rfl, rfl⟩

/-- C8: the engine's record_and_report_loss succeeds exactly when the
reporting hotkey is registered; for an unregistered hotkey it fails with the
miner-not-found (NotFound-class) error; for a registered hotkey it appends
the loss record and retains the latest loss per activation id, and a repeat
report — including one for the SAME activation id — still succeeds. -/
theorem c8_record_and_report_loss_total (st : Orchestrator) (h : String)
    (uid uid2 : Nat) (l l2 : Rat) :
    okE (st.record_and_report_loss h uid l) = (st.get_miner_data h).isSome
  ∧ (st.get_miner_data h = none →
      st.record_and_report_loss h uid l = .error (.minerNotFound h))
  ∧ (∀ md, st.get_miner_data h = some md →
      st.record_and_report_loss h uid l = .ok (lossAppended st h uid l)
      ∧ okE ((lossAppended st h uid l).record_and_report_loss h uid2 l2) = true) := by
  refine ⟨?_, ?_, ?_⟩
  · cases hmd : st.get_miner_data h <;>
      simp [Orchestrator.record_and_report_loss, okE, hmd]
  · intro hmd
    simp [Orchestrator.record_and_report_loss, hmd]
  · intro md hmd
    have h2 : (lossAppended st h uid l).get_miner_data h = some md := by
      simp only [lossAppended, Orchestrator.get_miner_data] at hmd ⊢
      exact hmd
    constructor
    · simp [Orchestrator.record_and_report_loss, hmd, lossAppended]
    · simp [Orchestrator.record_and_report_loss, h2, okE]

/-- C8 (witness): the registered miner "m" reports a loss for activation 1,
then reports again for the SAME activation id — both succeed. -/
theorem c8_record_and_report_loss_total_witness :
    stReg.record_and_report_loss "m" 1 5 = .ok (lossAppended stReg "m" 1 5)
  ∧ okE ((lossAppended stReg "m" 1 5).record_and_report_loss "m" 1 6) = true :=
  (c8_record_and_report_loss_total stReg "m" 1 1 5 6).2.2 mdIdle0 rfl

/-- C9: each of the six miner-scoped handlers evaluates the caller's
registry record inside its logging context as its very first step, before
any signature verification; for an unregistered hotkey the whole call —
whatever the signature's validity — collapses to that failed lookup: one
registry-lookup event, no verification event, an unchanged state, and an
uncaught miner-not-found error distinct from the handler's own 404 NotFound
branch. -/
theorem c9_registry_lookup_before_verification (st : Orchestrator) (b : Bool) (h : String)
    (s e : Bool) (su : MinerStatusUpdate) (wp mp op om : String) (ps : List Partition)
    (lr : LossReportRequest) (now : Rat) :
    ((update_miner_status st b h s e su).trace.head? = some (.registryLookup h)
      ∧ (request_layer st b h s e).trace.head? = some (.registryLookup h)
      ∧ (notify_weights_uploaded st b h s e wp mp op om).trace.head? = some (.registryLookup h)
      ∧ (notify_merged_partitions_uploaded st b h s e ps).trace.head? = some (.registryLookup h)
      ∧ (report_loss st b h s e lr now).trace.head? = some (.registryLookup h)
      ∧ (get_chunks_for_miner st b h s e).trace.head? = some (.registryLookup h))
  ∧ (st.get_miner_data h = none →
        update_miner_status st b h s e su
            = ⟨[.registryLookup h], .fail (.unhandled (.minerNotFound h)), st⟩
        ∧ request_layer st b h s e
            = ⟨[.registryLookup h], .fail (.unhandled (.minerNotFound h)), st⟩
        ∧ notify_weights_uploaded st b h s e wp mp op om
            = ⟨[.registryLookup h], .fail (.unhandled (.minerNotFound h)), st⟩
        ∧ notify_merged_partitions_uploaded st b h s e ps
            = ⟨[.registryLookup h], .fail (.unhandled (.minerNotFound h)), st⟩
        ∧ report_loss st b h s e lr now
            = ⟨[.registryLookup h], .fail (.unhandled (.minerNotFound h)), st⟩
        ∧ get_chunks_for_miner st b h s e
            = ⟨[.registryLookup h], .fail (.unhandled (.minerNotFound h)), st⟩)
  ∧ ApiError.unhandled (.minerNotFound h) ≠ ApiError.notFound "Miner not found" := by
  refine ⟨⟨?_, ?_, ?_, ?_, ?_, ?_⟩, ?_, by simp⟩
  · cases hmd : st.get_miner_data h <;> cases s <;> cases b <;> cases e <;>
      simp [update_miner_status, entTr, hmd]
  · cases hmd : st.get_miner_data h <;> cases s <;> cases b <;> cases e <;>
      simp [request_layer, entTr, hmd]
  · cases hmd : st.get_miner_data h <;> cases s <;> cases b <;> cases e <;>
      simp [notify_weights_uploaded, entTr, hmd]
  · cases hmd : st.get_miner_data h <;> cases s <;>
      simp [notify_merged_partitions_uploaded, hmd]
  · cases hmd : st.get_miner_data h <;> cases s <;> cases b <;> cases e <;>
      simp [report_loss, entTr, hmd]
  · cases hmd : st.get_miner_data h <;> cases s <;> cases b <;> cases e <;>
      simp [get_chunks_for_miner, entTr, hmd]
  · intro hmd
    refine ⟨?_, ?_, ?_, ?_, ?_, ?_⟩ <;>
      simp [update_miner_status, request_layer, notify_weights_uploaded,
            notify_merged_partitions_uploaded, report_loss, get_chunks_for_miner, hmd]

/-- C9 (witness): with an empty registry, calls signed by the unregistered
hotkey "x" with an INVALID signature still die at the registry lookup: one
lookup event, no verification event, the uncaught miner-not-found error. -/
theorem c9_registry_lookup_before_verification_witness :
    update_miner_status stEmpty false "x" false true suW
        = ⟨[.registryLookup "x"], .fail (.unhandled (.minerNotFound "x")), stEmpty⟩
  ∧ report_loss stEmpty false "x" false true ⟨1, 5⟩ 0
        = ⟨[.registryLookup "x"], .fail (.unhandled (.minerNotFound "x")), stEmpty⟩
  ∧ get_chunks_for_miner stEmpty false "x" false true
        = ⟨[.registryLookup "x"], .fail (.unhandled (.minerNotFound "x")), stEmpty⟩ := by
  have hc := (c9_registry_lookup_before_verification stEmpty false "x" false true suW
    "w" "wm" "o" "om" [] ⟨1, 5⟩ 0).2.1 rfl
  exact ⟨hc.1, hc.2.2.2.2.1, hc.2.2.2.2.2⟩

/-- C10: the merge_performance_history read leaves the collector state
untouched and reports in `recent_sessions` exactly the images under
`sessionEntry` (id, layer, status, timestamps, duration, participation rate,
and the SIZES of the target-miner / weights-received / partitions-completed
sets) of the final at-most-10 segment of the completed-session log. -/
theorem c10_merge_history_recent_sessions (st : Orchestrator) (now : Rat)
    (twh : Nat) (ilb : Bool) :
    (get_merge_performance_history st now twh ilb).state = st
  ∧ ∃ resp, (get_merge_performance_history st now twh ilb).result = .ok resp
      ∧ resp.recent_sessions
          = (st.weight_merging_metrics_collector.completed_sessions.drop
              (st.weight_merging_metrics_collector.completed_sessions.length - 10)).map
              sessionEntry
      ∧ resp.recent_sessions.length ≤ 10
      ∧ st.weight_merging_metrics_collector.completed_sessions
          = st.weight_merging_metrics_collector.completed_sessions.take
              (st.weight_merging_metrics_collector.completed_sessions.length - 10)
            ++ st.weight_merging_metrics_collector.completed_sessions.drop
              (st.weight_merging_metrics_collector.completed_sessions.length - 10) := by
  refine ⟨rfl, ⟨_, rfl, rfl, ?_, (List.take_append_drop _ _).symm⟩⟩
  simp only [List.length_map, List.length_drop]
  omega
